import Mathlib

/-!
# misc/tst-mremap.c : the table-driven `mremap` test

A shallow embedding of the C test program `misc/tst-mremap.c`.

* Pointers and `size_t` values are naturals below `2 ^ 64` (LP64), `int`
  values are integers.
* The operating system is a script of answers (`World`): the answer to the
  k-th call of every primitive.  The program is sequential and deterministic,
  so every behaviour of a real run is the run of the model in some `World`.
* A run threads a state `St` that records every call of a primitive, every
  store and every load, in program order (`St.trace`).
* A run either returns a value, or stops: `Stop.fatal` is `FAIL_EXIT1`
  (the process exits with status 1), `Stop.crash` is an access through a
  pointer that cannot be dereferenced (`NULL`, `MAP_FAILED`, or an address
  the script declares unreadable).
-/

namespace TstMremap

/-! ## Constants of the system headers (Linux, LP64) -/

/-- The macro `MAP_FAILED` of `<sys/mman.h>`: `(void *) -1`. -/
def MAP_FAILED : Nat := 2 ^ 64 - 1

/-- The null pointer `NULL`. -/
def NULL : Nat := 0

/-- The macro `EINVAL` of `<errno.h>` (its value on Linux). -/
def EINVAL : Int := 22

/-- The macro `ENOMEM` of `<errno.h>` (its value on Linux). -/
def ENOMEM : Int := 12

/-- The macro `MREMAP_MAYMOVE` of `<sys/mman.h>` (its value on Linux). -/
def MREMAP_MAYMOVE : Nat := 1

/-- The macro `MREMAP_FIXED` of `<sys/mman.h>` (its value on Linux). -/
def MREMAP_FIXED : Nat := 2

/-- The macro `MREMAP_DONTUNMAP` of `<sys/mman.h>` (its value on Linux). -/
def MREMAP_DONTUNMAP : Nat := 4

/-- Conversion of an `int` to `size_t` (value modulo `2 ^ 64`). -/
def size_t_of_int (i : Int) : Nat := (i % (2 ^ 64 : Int)).toNat

/-- Conversion of a `size_t` to `int` (gcc: value modulo `2 ^ 32`, read as a
signed 32-bit number). -/
def int_of_size_t (n : Nat) : Int :=
  if n % 2 ^ 32 < 2 ^ 31 then ((n % 2 ^ 32 : Nat) : Int)
  else ((n % 2 ^ 32 : Nat) : Int) - (2 ^ 32 : Int)

/-- Multiplication of two `size_t` values. -/
def size_t_mul (a b : Nat) : Nat := (a * b) % 2 ^ 64

/-! ## The data model -/

/-- The `setup` member of `struct test_construct`: a pointer to one of the five
setup routines. -/
inductive SetupFn
  | setup1 | setup2 | setup3 | setup4 | setup5
  deriving DecidableEq, Repr

/-- The C type `struct test_construct` (`mem_constr`). -/
structure test_construct where
  test_case : String
  old_address : Nat
  new_address : Nat
  old_size : Nat
  new_size : Nat
  flags : Nat
  exp_ret : Nat
  exp_errno : Int
  setup : SetupFn
  deriving DecidableEq, Repr

/-- Offset of the member `old_address` in `struct test_construct` (LP64). -/
def off_old_address : Nat := 8

/-- Offset of the member `new_address` in `struct test_construct` (LP64). -/
def off_new_address : Nat := 16

/-- An argument of `printf` after the format: a string (`%s`) or a pointer
(`%p`). -/
inductive PrintfArg
  | str (s : String)
  | ptr (p : Nat)
  deriving DecidableEq, Repr

/-- What a run does that is visible from outside, in program order. -/
inductive Event
  | getpagesize
  | posix_memalign (alignment size : Nat)
  | malloc (size : Nat)
  | mmap (length : Nat)
  | munmap (addr length : Nat)
  | mremap (old_address old_size new_size flags : Nat) (new_address : Option Nat)
  | store (addr val : Nat)
  | load (addr : Nat)
  | printf (format : String) (args : List PrintfArg)
  deriving DecidableEq, Repr

/-- The answers of the operating system and of the C library in one run of the
process: the k-th call of a primitive gets the k-th answer of its script. -/
structure World where
  /-- Result of the k-th `getpagesize ()`. -/
  getpagesize : Nat → Int
  /-- The k-th `posix_memalign`: its return value and the pointer left in `p`. -/
  posix_memalign : Nat → Int × Nat
  /-- Result of the k-th `malloc`. -/
  malloc : Nat → Nat
  /-- Result of the k-th `mmap`. -/
  mmap : Nat → Nat
  /-- Result of the k-th `munmap`. -/
  munmap : Nat → Int
  /-- The k-th `mremap`: the address returned and the value of `errno` after
  the call. -/
  mremap : Nat → Nat × Int
  /-- The byte read at an address after k calls of `mremap` (`none`: the
  address cannot be read). -/
  mem : Nat → Nat → Option Nat
  /-- Address of the parameter object `t_data` of `mremap_tests`. -/
  t_addr : Nat

/-- The state of a run: the globals `errno` and `page_sz`, the number of calls
made to each primitive so far, and the record of the run. -/
structure St where
  errno : Int
  page_sz : Int
  n_getpagesize : Nat
  n_posix_memalign : Nat
  n_malloc : Nat
  n_mmap : Nat
  n_munmap : Nat
  n_mremap : Nat
  trace : List Event
  deriving DecidableEq, Repr

/-- The state at process start. -/
def St.init : St :=
  { errno := 0, page_sz := 0, n_getpagesize := 0, n_posix_memalign := 0, n_malloc := 0,
    n_mmap := 0, n_munmap := 0, n_mremap := 0, trace := [] }

/-- Why a run stops before returning. -/
inductive Stop
  | fatal
  | crash
  deriving DecidableEq, Repr

/-- The result of running a piece of the program from a state. -/
inductive Res (α : Type)
  | ok (a : α) (s : St)
  | stop (why : Stop) (s : St)
  deriving DecidableEq, Repr

/-- A piece of the program: a function from the state before to the result. -/
def M (α : Type) : Type := St → Res α

/-- Sequencing: the second piece runs only when the first one returns. -/
def M.bind {α β : Type} (m : M α) (f : α → M β) : M β := fun s =>
  match m s with
  | .ok a s1 => f a s1
  | .stop why s1 => .stop why s1

/-- A piece that returns a value and does nothing. -/
def M.pure {α : Type} (a : α) : M α := fun s => .ok a s

instance : Monad M where
  pure := M.pure
  bind := M.bind

/-- Append an event to the record. -/
def log (e : Event) : M Unit := fun s => .ok () { s with trace := s.trace ++ [e] }

/-- The macro `FAIL_EXIT1`: the process exits with status 1. -/
def FAIL_EXIT1 {α : Type} : M α := fun s => .stop .fatal s

/-- The assignment `errno = v`. -/
def set_errno (v : Int) : M Unit := fun s => .ok () { s with errno := v }

/-- Read `errno`. -/
def get_errno : M Int := fun s => .ok s.errno s

/-- Read the global `page_sz`. -/
def get_page_sz : M Int := fun s => .ok s.page_sz s

/-- The assignment `page_sz = v`. -/
def set_page_sz (v : Int) : M Unit := fun s => .ok () { s with page_sz := v }

/-! ## The primitives -/

/-- The call `getpagesize ()`. -/
def getpagesize (w : World) : M Int := fun s =>
  .ok (w.getpagesize s.n_getpagesize)
    { s with n_getpagesize := s.n_getpagesize + 1, trace := s.trace ++ [Event.getpagesize] }

/-- The call `posix_memalign (&p, alignment, size)` with `p` equal to `NULL`
before: returns the return value and the value of `p` after. -/
def posix_memalign (w : World) (alignment size : Nat) : M (Int × Nat) := fun s =>
  .ok (w.posix_memalign s.n_posix_memalign)
    { s with n_posix_memalign := s.n_posix_memalign + 1,
             trace := s.trace ++ [Event.posix_memalign alignment size] }

/-- The call `malloc (size)`. -/
def malloc (w : World) (size : Nat) : M Nat := fun s =>
  .ok (w.malloc s.n_malloc)
    { s with n_malloc := s.n_malloc + 1, trace := s.trace ++ [Event.malloc size] }

/-- The call `mmap (NULL, length, PROT_READ | PROT_WRITE,
MAP_PRIVATE | MAP_ANONYMOUS, 0, 0)`. -/
def mmap (w : World) (length : Nat) : M Nat := fun s =>
  .ok (w.mmap s.n_mmap)
    { s with n_mmap := s.n_mmap + 1, trace := s.trace ++ [Event.mmap length] }

/-- The call `munmap (addr, length)`. -/
def munmap (w : World) (addr length : Nat) : M Int := fun s =>
  .ok (w.munmap s.n_munmap)
    { s with n_munmap := s.n_munmap + 1, trace := s.trace ++ [Event.munmap addr length] }

/-- The call `mremap (old_address, old_size, new_size, flags [, new_address])`:
returns the address and sets `errno` as the script says. -/
def mremap (w : World) (old_address old_size new_size flags : Nat)
    (new_address : Option Nat) : M Nat := fun s =>
  .ok (w.mremap s.n_mremap).1
    { s with n_mremap := s.n_mremap + 1, errno := (w.mremap s.n_mremap).2,
             trace := s.trace ++ [Event.mremap old_address old_size new_size flags new_address] }

/-- The assignment `*addr = val` through a `char *`: an invalid access when
`addr` is `NULL` or `MAP_FAILED`. -/
def store (addr val : Nat) : M Unit := fun s =>
  if addr = NULL ∨ addr = MAP_FAILED then
    .stop .crash { s with trace := s.trace ++ [Event.store addr val] }
  else
    .ok () { s with trace := s.trace ++ [Event.store addr val] }

/-- The expression `*addr` through a `char *`: an invalid access when `addr` is
`NULL` or `MAP_FAILED` or when the script declares the address unreadable. -/
def load (w : World) (addr : Nat) : M Nat := fun s =>
  if addr = NULL ∨ addr = MAP_FAILED then
    .stop .crash { s with trace := s.trace ++ [Event.load addr] }
  else
    match w.mem s.n_mremap addr with
    | some v => .ok v { s with trace := s.trace ++ [Event.load addr] }
    | none => .stop .crash { s with trace := s.trace ++ [Event.load addr] }

/-- The call `printf (format, args...)`. -/
def printf (format : String) (args : List PrintfArg) : M Unit :=
  log (Event.printf format args)

/-! ## The program -/

/-- The table `t_data`: members that have no initializer are zero. -/
def t_data : Fin 5 → test_construct
  | 0 =>
    { test_case := "MREMAP_MAYMOVE remaps and extends a memory mapping, unmaps             the existing mapping",
      old_address := NULL, new_address := NULL,
      flags := MREMAP_MAYMOVE,
      old_size := 2,
      new_size := 4,
      exp_ret := NULL, exp_errno := 0,
      setup := .setup1 }
  | 1 =>
    { test_case := "MREMAP_MAYMOVE fails to remap unaligned memory to pagesize",
      old_address := NULL, new_address := NULL,
      flags := MREMAP_MAYMOVE,
      old_size := 2,
      new_size := 4,
      exp_ret := MAP_FAILED,
      exp_errno := EINVAL,
      setup := .setup2 }
  | 2 =>
    { test_case := "MREMAP_FIXED extends and remaps existing memory mapping             to a new memory mapping specified by the page-aligned new_addr",
      old_address := NULL, new_address := NULL,
      flags := MREMAP_FIXED ||| MREMAP_MAYMOVE,
      old_size := 2,
      new_size := 4,
      exp_ret := NULL, exp_errno := 0,
      setup := .setup3 }
  | 3 =>
    { test_case := "MREMAP_DONTUNMAP remaps the old mapping to a new address             without unmapping the existing one",
      old_address := NULL, new_address := NULL,
      flags := MREMAP_DONTUNMAP ||| MREMAP_MAYMOVE,
      old_size := 2,
      new_size := 2,
      exp_ret := NULL, exp_errno := 0,
      setup := .setup4 }
  | 4 =>
    { test_case := "MREMAP_DONTUNMAP remaps the old mapping to a new one             without unmapping the existing one. The fifth argument to specify the address             range to map, but kernel returns a different address",
      old_address := NULL, new_address := NULL,
      flags := MREMAP_DONTUNMAP ||| MREMAP_MAYMOVE,
      old_size := 2,
      new_size := 2,
      exp_ret := NULL, exp_errno := 0,
      setup := .setup5 }

/-- The function `map_mem (char **p, size_t size)`.  `p` is the address of the
pointer member that receives the mapping; the value returned is the value
stored in `*p`. -/
def map_mem (w : World) (p : Nat) (size : Nat) : M Nat := do
  set_errno 0
  let star_p ← mmap w size
  if p = MAP_FAILED then
    FAIL_EXIT1
  pure star_p

/-- The function `cleanup (void *addr, int size)`. -/
def cleanup (w : World) (addr : Nat) (size : Int) : M Unit := do
  set_errno 0
  let mut ret : Int := 0
  if addr ≠ NULL then
    ret ← munmap w addr (size_t_of_int size)
  if ret = -1 then
    FAIL_EXIT1

/-- The function `setup1 (struct test_construct *t)`: `tp` is the pointer `t`,
the argument `t` is the object it points to, the result is that object after
the call. -/
def setup1 (w : World) (_tp : Nat) (t : test_construct) : M test_construct := do
  let mut t := t
  let page_sz ← get_page_sz
  t := { t with old_size := size_t_mul (size_t_of_int page_sz) t.old_size }
  t := { t with new_size := size_t_mul (size_t_of_int page_sz) t.new_size }
  let (ret, p) ← posix_memalign w (size_t_of_int page_sz) t.old_size
  if ret ≠ ENOMEM then
    t := { t with old_address := p }
    store t.old_address 1
  else
    FAIL_EXIT1
  pure t

/-- The function `setup2 (struct test_construct *t)`. -/
def setup2 (w : World) (_tp : Nat) (t : test_construct) : M test_construct := do
  let mut t := t
  let page_sz ← get_page_sz
  t := { t with old_size := size_t_mul (size_t_of_int page_sz) t.old_size }
  t := { t with new_size := size_t_mul (size_t_of_int page_sz) t.new_size }
  t := { t with old_address := (← malloc w t.old_size) }
  if t.old_address = NULL then
    FAIL_EXIT1
  pure t

/-- The function `setup3 (struct test_construct *t)`. -/
def setup3 (w : World) (tp : Nat) (t : test_construct) : M test_construct := do
  let mut t := t
  let page_sz ← get_page_sz
  t := { t with old_size := size_t_mul (size_t_of_int page_sz) t.old_size }
  t := { t with new_size := size_t_mul (size_t_of_int page_sz) t.new_size }
  t := { t with old_address := (← map_mem w (tp + off_old_address) t.old_size) }
  t := { t with new_address := (← map_mem w (tp + off_new_address) t.new_size) }
  t := { t with exp_ret := t.new_address }
  store t.old_address 1
  store t.new_address 2
  pure t

/-- The function `setup4 (struct test_construct *t)`. -/
def setup4 (w : World) (tp : Nat) (t : test_construct) : M test_construct := do
  let mut t := t
  let page_sz ← get_page_sz
  t := { t with old_size := size_t_mul (size_t_of_int page_sz) t.old_size }
  t := { t with old_address := (← map_mem w (tp + off_old_address) t.old_size) }
  store t.old_address 1
  pure t

/-- The function `setup5 (struct test_construct *t)`. -/
def setup5 (w : World) (tp : Nat) (t : test_construct) : M test_construct := do
  let mut t := t
  let page_sz ← get_page_sz
  t := { t with old_size := size_t_mul (size_t_of_int page_sz) t.old_size }
  t := { t with new_size := size_t_mul (size_t_of_int page_sz) t.new_size }
  t := { t with old_address := (← map_mem w (tp + off_old_address) t.old_size) }
  t := { t with new_address := (← map_mem w (tp + off_new_address) t.new_size) }
  store t.old_address 1
  pure t

/-- The call `t->setup (t)` through the function pointer. -/
def call_setup (w : World) (f : SetupFn) (tp : Nat) (t : test_construct) : M test_construct :=
  match f with
  | .setup1 => setup1 w tp t
  | .setup2 => setup2 w tp t
  | .setup3 => setup3 w tp t
  | .setup4 => setup4 w tp t
  | .setup5 => setup5 w tp t

/-- The function `mremap_tests (mem_constr t_data, int test_no)`.  The operands
of `&&` and `||` are evaluated left to right and only as far as needed; the two
operands of `==` in case 3 are read left to right. -/
def mremap_tests (w : World) (t_data : test_construct) (test_no : Int) : M Int := do
  let mut t_data := t_data
  let mut addr : Nat := NULL
  let mut ret : Int := 0
  set_errno 0
  set_page_sz (← getpagesize w)
  if test_no = 1 then
    t_data ← call_setup w t_data.setup w.t_addr t_data
    addr ← mremap w t_data.old_address t_data.old_size t_data.new_size t_data.flags none
    if addr = MAP_FAILED then
      if (← load w addr) ≠ 1 then
        ret := 1
    cleanup w addr (int_of_size_t t_data.new_size)
  else if test_no = 2 then
    t_data ← call_setup w t_data.setup w.t_addr t_data
    addr ← mremap w t_data.old_address t_data.old_size t_data.new_size t_data.flags none
    if addr ≠ MAP_FAILED then
      ret := 1
    else if (← get_errno) ≠ t_data.exp_errno then
      ret := 1
  else if test_no = 3 then
    t_data ← call_setup w t_data.setup w.t_addr t_data
    addr ← mremap w t_data.old_address t_data.old_size t_data.new_size t_data.flags
      (some t_data.new_address)
    if addr ≠ MAP_FAILED then
      if addr ≠ t_data.exp_ret then
        let lhs ← load w addr
        let rhs ← load w t_data.old_address
        if lhs = rhs then
          printf "mremap was not successful new_mem_addr = %paddr = %p"
            [.ptr t_data.new_address, .ptr addr]
          ret := 1
    cleanup w addr (int_of_size_t t_data.new_size)
    cleanup w t_data.old_address (int_of_size_t t_data.old_size)
    cleanup w t_data.new_address (int_of_size_t t_data.new_size)
  else if test_no = 4 then
    t_data ← call_setup w t_data.setup w.t_addr t_data
    addr ← mremap w t_data.old_address t_data.old_size t_data.new_size t_data.flags none
    if addr ≠ MAP_FAILED then
      if (← load w addr) ≠ 1 then
        ret := 1
    cleanup w t_data.old_address (int_of_size_t t_data.old_size)
  else if test_no = 5 then
    t_data ← call_setup w t_data.setup w.t_addr t_data
    addr ← mremap w t_data.old_address t_data.old_size t_data.new_size t_data.flags
      (some t_data.new_address)
    if addr ≠ MAP_FAILED then
      if (← load w addr) ≠ 1 then
        ret := 1
    cleanup w addr (int_of_size_t t_data.new_size)
    cleanup w t_data.old_address (int_of_size_t t_data.old_size)
    cleanup w t_data.new_address (int_of_size_t t_data.new_size)
  pure ret

/-- The function `do_test (void)`. -/
def do_test (w : World) : M Int := do
  let mut ret : Int := 0
  if (← mremap_tests w (t_data 0) 1) ≠ 0 then
    printf "mremap test 1 %s failed" [.str (t_data 0).test_case]
    ret := 1
  if (← mremap_tests w (t_data 1) 2) ≠ 0 then
    printf "mremap test 2 %s failed" [.str (t_data 1).test_case]
    ret := 1
  if (← mremap_tests w (t_data 2) 3) ≠ 0 then
    printf "mremap test 3 %s failed" [.str (t_data 2).test_case]
    ret := 1
  if (← mremap_tests w (t_data 3) 4) ≠ 0 then
    printf "mremap test 4 %s failed" [.str (t_data 3).test_case]
    ret := 1
  if (← mremap_tests w (t_data 4) 5) ≠ 0 then
    printf "mremap test 5 %s failed" [.str (t_data 4).test_case]
    ret := 1
  pure ret

/-- The value returned, when the run returns. -/
def Res.value? {α : Type} : Res α → Option α
  | .ok a _ => some a
  | .stop _ _ => none

/-- The state in which the run returns or stops. -/
def Res.state {α : Type} : Res α → St
  | .ok _ s => s
  | .stop _ s => s

/-- Why the run stopped, when it did not return. -/
def Res.stopped? {α : Type} : Res α → Option Stop
  | .ok _ _ => none
  | .stop why _ => some why

/-! ## Reading the record of a run -/

/-- The calls of `munmap` in a record, in order: address and length. -/
def munmap_calls : List Event → List (Nat × Nat)
  | [] => []
  | Event.munmap addr length :: es => (addr, length) :: munmap_calls es
  | _ :: es => munmap_calls es

/-- The number of calls of `munmap` on the address `a` in a record. -/
def munmap_count (a : Nat) (tr : List Event) : Nat :=
  ((munmap_calls tr).filter (fun c => c.1 = a)).length

/-- The calls of `mremap` in a record, in order: the `old_size` and `new_size`
arguments. -/
def mremap_sizes : List Event → List (Nat × Nat)
  | [] => []
  | Event.mremap _ old_size new_size _ _ :: es => (old_size, new_size) :: mremap_sizes es
  | _ :: es => mremap_sizes es

/-- The addresses read in a record, in order. -/
def loads : List Event → List Nat
  | [] => []
  | Event.load addr :: es => addr :: loads es
  | _ :: es => loads es

/-- The value of `page_sz * n` in `size_t`. -/
def scaled (page_sz : Int) (n : Nat) : Nat := size_t_mul (size_t_of_int page_sz) n

/-- The state after `do_test` has looked at the value `r` returned for a
scenario: the line `format` is printed with the label `test_case` when `r` is
not zero. -/
def reported (format test_case : String) (r : Int) (s : St) : St :=
  if r ≠ 0 then { s with trace := s.trace ++ [Event.printf format [.str test_case]] } else s

/-! ## Concrete runs -/

/-- A run with 4 KiB pages in which every allocation and every `munmap`
succeeds, and `mremap` answers with the address `0x7e0000000000`, where the first
byte reads `0x1`. -/
def w_linux : World :=
  { getpagesize := fun _ => 4096,
    posix_memalign := fun _ => (0, 0x555500002000),
    malloc := fun _ => 0x555500100010,
    mmap := fun k => 0x7f0000000000 + k * 0x100000,
    munmap := fun _ => 0,
    mremap := fun _ => (0x7e0000000000, 0),
    mem := fun _ a => if a = 0x7e0000000000 then some 1 else none,
    t_addr := 0x7ffc00001000 }

/-- As `w_linux`, but `mremap` fails with `EINVAL`. -/
def w_mremap_fails : World :=
  { w_linux with mremap := fun _ => (MAP_FAILED, EINVAL) }

/-- As `w_linux`, but `mmap` fails. -/
def w_mmap_fails : World :=
  { w_linux with mmap := fun _ => MAP_FAILED }

/-- As `w_linux`, but the first byte of the mapping that `mremap` returns reads
`0x0`: the tag written by the setup routine is lost. -/
def w_tag_lost : World :=
  { w_linux with mem := fun _ a => if a = 0x7e0000000000 then some 0 else none }

/-- As `w_linux`, but `mremap` answers with the address of the second mapping of
the run (the destination that `setup3` maps), where the first byte reads the
`0x1` of the source. -/
def w_fixed : World :=
  { w_linux with
    mremap := fun _ => (0x7f0000100000, 0),
    mem := fun _ a => if a = 0x7f0000100000 then some 1 else none }

/-- As `w_fixed`, but the first byte of the destination still reads the `0x2`
that `setup3` wrote there. -/
def w_fixed_tag_kept : World :=
  { w_fixed with mem := fun _ a => if a = 0x7f0000100000 then some 2 else none }

/-- A run of the whole suite: the scripts answer scenario 1 to 5 in turn.
Scenario 2 and scenario 4 get `MAP_FAILED` with `EINVAL`, scenario 3 gets its
destination (the second mapping of the run). -/
def w_suite : World :=
  { w_linux with
    mremap := fun k =>
      if k = 1 ∨ k = 3 then (MAP_FAILED, EINVAL)
      else if k = 2 then (0x7f0000100000, 0)
      else (0x7e0000000000, 0),
    mem := fun _ a => if a = 0x7e0000000000 ∨ a = 0x7f0000100000 then some 1 else none }

/-- As `w_suite`, but the `mremap` of scenario 2 succeeds. -/
def w_suite_2 : World :=
  { w_suite with
    mremap := fun k =>
      if k = 3 then (MAP_FAILED, EINVAL)
      else if k = 2 then (0x7f0000100000, 0)
      else (0x7e0000000000, 0) }

/-! ## Lemmas: the helper functions and the setup routines -/

/-- The run of `cleanup`, case by case. -/
theorem cleanup_eq (w : World) (addr : Nat) (size : Int) (s : St) :
    cleanup w addr size s =
      if addr = NULL then
        .ok () { s with errno := 0 }
      else if w.munmap s.n_munmap = -1 then
        .stop .fatal { s with errno := 0, n_munmap := s.n_munmap + 1,
                              trace := s.trace ++ [Event.munmap addr (size_t_of_int size)] }
      else
        .ok () { s with errno := 0, n_munmap := s.n_munmap + 1,
                         trace := s.trace ++ [Event.munmap addr (size_t_of_int size)] } := by
  by_cases h : addr = NULL
  · simp [cleanup, bind, M.bind, set_errno, pure, M.pure, h]
  · by_cases h1 : w.munmap s.n_munmap = -1
    · simp [cleanup, bind, M.bind, set_errno, pure, M.pure, h, h1, munmap, FAIL_EXIT1]
    · simp [cleanup, bind, M.bind, set_errno, pure, M.pure, h, h1, munmap, FAIL_EXIT1]

/-- The `size_t` that `munmap` receives from `cleanup` is the `int` it was given,
whenever that `int` is not negative. -/
theorem size_t_of_int_nonneg (size : Int) (h0 : 0 ≤ size) (h1 : size < 2 ^ 31) :
    (size_t_of_int size : Int) = size := by
  unfold size_t_of_int
  have h2 : size % (2 ^ 64 : Int) = size := Int.emod_eq_of_lt h0 (by omega)
  rw [h2]
  exact Int.toNat_of_nonneg h0

/-- The function `map_mem` compares the address `p` of the pointer member, never the mapping
stored in it: whatever `mmap` returns, the call returns with that value in `*p`
as long as `p` itself is not `MAP_FAILED`. -/
theorem map_mem_returns (w : World) (p size : Nat) (s : St) (hp : p ≠ MAP_FAILED) :
    map_mem w p size s =
      .ok (w.mmap s.n_mmap)
        { s with errno := 0, n_mmap := s.n_mmap + 1, trace := s.trace ++ [Event.mmap size] } := by
  simp [map_mem, bind, M.bind, set_errno, pure, M.pure, mmap, hp]

/-- The address of a pointer member of an 8-byte aligned object is never
`MAP_FAILED`. -/
theorem member_ne_MAP_FAILED (tp off : Nat) (h : tp % 8 = 0) (ho : off % 8 = 0) :
    tp + off ≠ MAP_FAILED := by
  unfold MAP_FAILED
  omega

theorem munmap_calls_append (l1 l2 : List Event) :
    munmap_calls (l1 ++ l2) = munmap_calls l1 ++ munmap_calls l2 := by
  induction l1 with
  | nil => rfl
  | cons e es ih => cases e <;> simp [munmap_calls, ih]

theorem loads_append (l1 l2 : List Event) : loads (l1 ++ l2) = loads l1 ++ loads l2 := by
  induction l1 with
  | nil => rfl
  | cons e es ih => cases e <;> simp [loads, ih]

theorem setup1_spec (w : World) (tp : Nat) (t : test_construct) (s : St) :
    setup1 w tp t s =
      if (w.posix_memalign s.n_posix_memalign).1 = ENOMEM then
        .stop .fatal
          { s with n_posix_memalign := s.n_posix_memalign + 1,
                   trace := s.trace ++
                     [Event.posix_memalign (size_t_of_int s.page_sz) (scaled s.page_sz t.old_size)] }
      else if (w.posix_memalign s.n_posix_memalign).2 = NULL
          ∨ (w.posix_memalign s.n_posix_memalign).2 = MAP_FAILED then
        .stop .crash
          { s with n_posix_memalign := s.n_posix_memalign + 1,
                   trace := s.trace ++
                     [Event.posix_memalign (size_t_of_int s.page_sz) (scaled s.page_sz t.old_size),
                      Event.store (w.posix_memalign s.n_posix_memalign).2 1] }
      else
        .ok { t with old_size := scaled s.page_sz t.old_size,
                     new_size := scaled s.page_sz t.new_size,
                     old_address := (w.posix_memalign s.n_posix_memalign).2 }
          { s with n_posix_memalign := s.n_posix_memalign + 1,
                   trace := s.trace ++
                     [Event.posix_memalign (size_t_of_int s.page_sz) (scaled s.page_sz t.old_size),
                      Event.store (w.posix_memalign s.n_posix_memalign).2 1] } := by
  by_cases e1 : (w.posix_memalign s.n_posix_memalign).1 = ENOMEM <;>
  by_cases e2 : (w.posix_memalign s.n_posix_memalign).2 = NULL
          ∨ (w.posix_memalign s.n_posix_memalign).2 = MAP_FAILED <;>
  simp [setup1, bind, M.bind, pure, M.pure, get_page_sz, posix_memalign, e1, e2, FAIL_EXIT1,
    store, scaled]

theorem setup2_spec (w : World) (tp : Nat) (t : test_construct) (s : St) :
    setup2 w tp t s =
      if w.malloc s.n_malloc = NULL then
        .stop .fatal
          { s with n_malloc := s.n_malloc + 1,
                   trace := s.trace ++ [Event.malloc (scaled s.page_sz t.old_size)] }
      else
        .ok { t with old_size := scaled s.page_sz t.old_size,
                     new_size := scaled s.page_sz t.new_size,
                     old_address := w.malloc s.n_malloc }
          { s with n_malloc := s.n_malloc + 1,
                   trace := s.trace ++ [Event.malloc (scaled s.page_sz t.old_size)] } := by
  by_cases e1 : w.malloc s.n_malloc = NULL <;>
  simp [setup2, bind, M.bind, pure, M.pure, get_page_sz, malloc, e1, FAIL_EXIT1, scaled]

theorem setup4_spec (w : World) (tp : Nat) (t : test_construct) (s : St) :
    setup4 w tp t s =
      if tp + off_old_address = MAP_FAILED then
        .stop .fatal
          { s with errno := 0, n_mmap := s.n_mmap + 1,
                   trace := s.trace ++ [Event.mmap (scaled s.page_sz t.old_size)] }
      else if w.mmap s.n_mmap = NULL ∨ w.mmap s.n_mmap = MAP_FAILED then
        .stop .crash
          { s with errno := 0, n_mmap := s.n_mmap + 1,
                   trace := s.trace ++
                     [Event.mmap (scaled s.page_sz t.old_size), Event.store (w.mmap s.n_mmap) 1] }
      else
        .ok { t with old_size := scaled s.page_sz t.old_size,
                     old_address := w.mmap s.n_mmap }
          { s with errno := 0, n_mmap := s.n_mmap + 1,
                   trace := s.trace ++
                     [Event.mmap (scaled s.page_sz t.old_size), Event.store (w.mmap s.n_mmap) 1] } := by
  by_cases e1 : tp + off_old_address = MAP_FAILED <;>
  by_cases e2 : w.mmap s.n_mmap = NULL ∨ w.mmap s.n_mmap = MAP_FAILED <;>
  simp [setup4, bind, M.bind, pure, M.pure, get_page_sz, map_mem, mmap, set_errno, e1, e2,
    FAIL_EXIT1, store, scaled]

theorem setup3_spec (w : World) (tp : Nat) (t : test_construct) (s : St) :
    setup3 w tp t s =
      if tp + off_old_address = MAP_FAILED then
        .stop .fatal
          { s with errno := 0, n_mmap := s.n_mmap + 1,
                   trace := s.trace ++ [Event.mmap (scaled s.page_sz t.old_size)] }
      else if tp + off_new_address = MAP_FAILED then
        .stop .fatal
          { s with errno := 0, n_mmap := s.n_mmap + 1 + 1,
                   trace := s.trace ++
                     [Event.mmap (scaled s.page_sz t.old_size),
                      Event.mmap (scaled s.page_sz t.new_size)] }
      else if w.mmap s.n_mmap = NULL ∨ w.mmap s.n_mmap = MAP_FAILED then
        .stop .crash
          { s with errno := 0, n_mmap := s.n_mmap + 1 + 1,
                   trace := s.trace ++
                     [Event.mmap (scaled s.page_sz t.old_size),
                      Event.mmap (scaled s.page_sz t.new_size),
                      Event.store (w.mmap s.n_mmap) 1] }
      else if w.mmap (s.n_mmap + 1) = NULL ∨ w.mmap (s.n_mmap + 1) = MAP_FAILED then
        .stop .crash
          { s with errno := 0, n_mmap := s.n_mmap + 1 + 1,
                   trace := s.trace ++
                     [Event.mmap (scaled s.page_sz t.old_size),
                      Event.mmap (scaled s.page_sz t.new_size),
                      Event.store (w.mmap s.n_mmap) 1,
                      Event.store (w.mmap (s.n_mmap + 1)) 2] }
      else
        .ok { t with old_size := scaled s.page_sz t.old_size,
                     new_size := scaled s.page_sz t.new_size,
                     old_address := w.mmap s.n_mmap,
                     new_address := w.mmap (s.n_mmap + 1),
                     exp_ret := w.mmap (s.n_mmap + 1) }
          { s with errno := 0, n_mmap := s.n_mmap + 1 + 1,
                   trace := s.trace ++
                     [Event.mmap (scaled s.page_sz t.old_size),
                      Event.mmap (scaled s.page_sz t.new_size),
                      Event.store (w.mmap s.n_mmap) 1,
                      Event.store (w.mmap (s.n_mmap + 1)) 2] } := by
  by_cases e1 : tp + off_old_address = MAP_FAILED <;>
  by_cases e2 : tp + off_new_address = MAP_FAILED <;>
  by_cases e3 : w.mmap s.n_mmap = NULL ∨ w.mmap s.n_mmap = MAP_FAILED <;>
  by_cases e4 : w.mmap (s.n_mmap + 1) = NULL ∨ w.mmap (s.n_mmap + 1) = MAP_FAILED <;>
  simp [setup3, bind, M.bind, pure, M.pure, get_page_sz, map_mem, mmap, set_errno, e1, e2, e3,
    e4, FAIL_EXIT1, store, scaled]

theorem setup5_spec (w : World) (tp : Nat) (t : test_construct) (s : St) :
    setup5 w tp t s =
      if tp + off_old_address = MAP_FAILED then
        .stop .fatal
          { s with errno := 0, n_mmap := s.n_mmap + 1,
                   trace := s.trace ++ [Event.mmap (scaled s.page_sz t.old_size)] }
      else if tp + off_new_address = MAP_FAILED then
        .stop .fatal
          { s with errno := 0, n_mmap := s.n_mmap + 1 + 1,
                   trace := s.trace ++
                     [Event.mmap (scaled s.page_sz t.old_size),
                      Event.mmap (scaled s.page_sz t.new_size)] }
      else if w.mmap s.n_mmap = NULL ∨ w.mmap s.n_mmap = MAP_FAILED then
        .stop .crash
          { s with errno := 0, n_mmap := s.n_mmap + 1 + 1,
                   trace := s.trace ++
                     [Event.mmap (scaled s.page_sz t.old_size),
                      Event.mmap (scaled s.page_sz t.new_size),
                      Event.store (w.mmap s.n_mmap) 1] }
      else
        .ok { t with old_size := scaled s.page_sz t.old_size,
                     new_size := scaled s.page_sz t.new_size,
                     old_address := w.mmap s.n_mmap,
                     new_address := w.mmap (s.n_mmap + 1) }
          { s with errno := 0, n_mmap := s.n_mmap + 1 + 1,
                   trace := s.trace ++
                     [Event.mmap (scaled s.page_sz t.old_size),
                      Event.mmap (scaled s.page_sz t.new_size),
                      Event.store (w.mmap s.n_mmap) 1] } := by
  by_cases e1 : tp + off_old_address = MAP_FAILED <;>
  by_cases e2 : tp + off_new_address = MAP_FAILED <;>
  by_cases e3 : w.mmap s.n_mmap = NULL ∨ w.mmap s.n_mmap = MAP_FAILED <;>
  simp [setup5, bind, M.bind, pure, M.pure, get_page_sz, map_mem, mmap, set_errno, e1, e2, e3,
    FAIL_EXIT1, store, scaled]

/-- The sizes that a setup routine leaves in the scenario object: `old_size` is
the page count of the table times `page_sz`; so is `new_size`, except after
`setup4`, which leaves `new_size` as it was. -/
theorem call_setup_sizes (w : World) (f : SetupFn) (tp : Nat) (t t1 : test_construct)
    (s s1 : St) (h : call_setup w f tp t s = .ok t1 s1) :
    t1.old_size = scaled s.page_sz t.old_size ∧
    t1.new_size = if f = SetupFn.setup4 then t.new_size else scaled s.page_sz t.new_size := by
  cases f <;>
    simp only [call_setup, setup1_spec, setup2_spec, setup3_spec, setup4_spec, setup5_spec] at h <;>
    split_ifs at h <;>
    simp only [Res.ok.injEq, reduceCtorEq] at h <;>
    obtain ⟨rfl, -⟩ := h <;>
    simp

/-! ## C10 and C9: `cleanup` and `map_mem` -/

/-- C10. The function `cleanup (addr, size)`: when `addr` is `NULL` no primitive is called and
the call returns (only `errno` is reset); when `addr` is not `NULL`, `munmap` is
called exactly once, with `addr` and `size` (converted to `size_t`), and the run
ends in `FAIL_EXIT1` exactly when that call returns `-1`. -/
theorem cleanup_calls_munmap_once (w : World) (addr : Nat) (size : Int) (s : St) :
    cleanup w addr size s =
      if addr = NULL then
        .ok () { s with errno := 0 }
      else if w.munmap s.n_munmap = -1 then
        .stop .fatal { s with errno := 0, n_munmap := s.n_munmap + 1,
                              trace := s.trace ++ [Event.munmap addr (size_t_of_int size)] }
      else
        .ok () { s with errno := 0, n_munmap := s.n_munmap + 1,
                         trace := s.trace ++ [Event.munmap addr (size_t_of_int size)] } := by
  by_cases h : addr = NULL
  · simp [cleanup, bind, M.bind, set_errno, pure, M.pure, h]
  · by_cases h1 : w.munmap s.n_munmap = -1
    · simp [cleanup, bind, M.bind, set_errno, pure, M.pure, h, h1, munmap, FAIL_EXIT1]
    · simp [cleanup, bind, M.bind, set_errno, pure, M.pure, h, h1, munmap, FAIL_EXIT1]

/-- C9, the code at the failing input: `mmap` returns `MAP_FAILED`, and `map_mem`
called on the member `old_address` of the scenario object returns normally, with
`MAP_FAILED` as the value stored in that member. -/
theorem map_mem_keeps_MAP_FAILED :
    w_mmap_fails.mmap 0 = MAP_FAILED ∧
    map_mem w_mmap_fails (w_mmap_fails.t_addr + off_old_address) 8192 St.init =
      .ok MAP_FAILED { St.init with n_mmap := 1, trace := [Event.mmap 8192] } := by
  decide

/-! ## C1: scenario 2 -/

/-- C1. Scenario 2, once `setup2` got its block from `malloc`: whatever address
and `errno` the call of `mremap` leaves, `mremap_tests` returns, and it returns 0
when the address is `MAP_FAILED` and `errno` is `EINVAL` (the `exp_errno` of the
table entry), and 1 for every other outcome. -/
theorem scenario2_pass_iff (w : World) (s : St) (addr : Nat) (errno : Int)
    (hm : w.malloc s.n_malloc ≠ NULL) (hr : w.mremap s.n_mremap = (addr, errno)) :
    (t_data 1).exp_errno = EINVAL ∧
    (mremap_tests w (t_data 1) 2 s).value?
      = some (if addr = MAP_FAILED ∧ errno = EINVAL then 0 else 1) := by
  refine ⟨rfl, ?_⟩
  simp [mremap_tests, bind, M.bind, set_errno, pure, M.pure, getpagesize, set_page_sz,
    call_setup, t_data, setup2, get_page_sz, malloc, hm, mremap, hr, get_errno, FAIL_EXIT1]
  by_cases h1 : addr = MAP_FAILED
  · by_cases h2 : errno = EINVAL
    · simp [h1, h2, M.bind, M.pure, get_errno, Res.value?]
    · simp [h1, h2, M.bind, M.pure, get_errno, Res.value?]
  · simp [h1, M.bind, M.pure, Res.value?]

/-- Scenario 2 passes in the run `w_mremap_fails`. -/
theorem scenario2_pass_iff_witness :
    (t_data 1).exp_errno = EINVAL ∧
    (mremap_tests w_mremap_fails (t_data 1) 2 St.init).value?
      = some (if MAP_FAILED = MAP_FAILED ∧ EINVAL = EINVAL then 0 else 1) :=
  scenario2_pass_iff w_mremap_fails St.init MAP_FAILED EINVAL (by decide) rfl

/-! ## C2, C3, C4, C5, C7, C8: the success scenarios in concrete runs -/

/-- C2, the code at the failing input: in scenario 4 `mremap` returns
`MAP_FAILED`, and `mremap_tests` returns 0. -/
theorem scenario4_passes_when_mremap_fails :
    (w_mremap_fails.mremap 0).1 = MAP_FAILED ∧
    (mremap_tests w_mremap_fails (t_data 3) 4 St.init).value? = some 0 := by
  decide

/-- C3, the code at the failing input: in scenario 3 `mremap` returns the
requested destination, whose first byte reads `0x2` (the tag of the destination,
not the `0x1` of the source); `mremap_tests` reads no byte at all and returns
0. -/
theorem scenario3_passes_with_destination_tag :
    (w_fixed_tag_kept.mremap 0).1 = w_fixed_tag_kept.mmap 1 ∧
    (w_fixed_tag_kept.mremap 0).1 ≠ MAP_FAILED ∧
    w_fixed_tag_kept.mem 1 (w_fixed_tag_kept.mremap 0).1 = some 2 ∧
    loads (mremap_tests w_fixed_tag_kept (t_data 2) 3 St.init).state.trace = [] ∧
    (mremap_tests w_fixed_tag_kept (t_data 2) 3 St.init).value? = some 0 := by
  decide

/-- C4, the code at the failing inputs.  When `mremap` returns a mapping whose
first byte reads `0x0`, scenario 1 reads no byte and returns 0.  When `mremap`
returns `MAP_FAILED`, scenario 1 reads the byte at `MAP_FAILED` and the run ends
there with an invalid access. -/
theorem scenario1_never_reads_tag :
    ((w_tag_lost.mremap 0).1 ≠ MAP_FAILED ∧
      w_tag_lost.mem 1 (w_tag_lost.mremap 0).1 = some 0 ∧
      loads (mremap_tests w_tag_lost (t_data 0) 1 St.init).state.trace = [] ∧
      (mremap_tests w_tag_lost (t_data 0) 1 St.init).value? = some 0) ∧
    ((w_mremap_fails.mremap 0).1 = MAP_FAILED ∧
      loads (mremap_tests w_mremap_fails (t_data 0) 1 St.init).state.trace = [MAP_FAILED] ∧
      (mremap_tests w_mremap_fails (t_data 0) 1 St.init).stopped? = some Stop.crash) := by
  decide

/-- C5, the code at the failing input: with a page size of 4096 the table entry
of scenario 4 holds 2 pages for both sizes, and `mremap` is called with an
`old_size` of `2 * 4096` and a `new_size` of 2. -/
theorem scenario4_new_size_not_scaled :
    w_linux.getpagesize 0 = 4096 ∧
    (t_data 3).old_size = 2 ∧ (t_data 3).new_size = 2 ∧
    mremap_sizes (mremap_tests w_linux (t_data 3) 4 St.init).state.trace = [(2 * 4096, 2)] := by
  decide

/-- C7, the code at the failing input: in scenario 4 `mremap` returns the
mapping `0x7e0000000000`; `mremap_tests` returns after a single call of
`munmap`, on the source mapping, and none on the mapping returned. -/
theorem scenario4_leaves_returned_mapping :
    (w_linux.mremap 0).1 = 0x7e0000000000 ∧
    (w_linux.mremap 0).1 ≠ MAP_FAILED ∧
    (mremap_tests w_linux (t_data 3) 4 St.init).value? = some 0 ∧
    munmap_calls (mremap_tests w_linux (t_data 3) 4 St.init).state.trace
      = [(w_linux.mmap 0, 8192)] ∧
    munmap_count 0x7e0000000000 (mremap_tests w_linux (t_data 3) 4 St.init).state.trace = 0 := by
  decide

/-- C8, counterexample: in scenario 3 `mremap` returns the requested destination
and `munmap` is called on that address twice. -/
theorem scenario3_unmaps_destination_twice :
    (w_fixed.mremap 0).1 = w_fixed.mmap 1 ∧
    (w_fixed.mremap 0).1 ≠ MAP_FAILED ∧
    (mremap_tests w_fixed (t_data 2) 3 St.init).value? = some 0 ∧
    ¬ munmap_count (w_fixed.mmap 1) (mremap_tests w_fixed (t_data 2) 3 St.init).state.trace ≤ 1 := by
  decide

/-! ## The success scenarios in every run -/

/-- Scenario 1 never returns when `mremap` returns `MAP_FAILED`: the run ends in
`setup1`, or with the read through `MAP_FAILED`. -/
theorem scenario1_hides_mremap_failure (w : World) (s : St)
    (h : (w.mremap s.n_mremap).1 = MAP_FAILED) :
    (mremap_tests w (t_data 0) 1 s).value? = none := by
  by_cases e1 : (w.posix_memalign s.n_posix_memalign).1 = ENOMEM
  · simp [mremap_tests, bind, M.bind, set_errno, pure, M.pure, getpagesize, set_page_sz,
      call_setup, t_data, setup1_spec, e1, Res.value?]
  by_cases e2 : (w.posix_memalign s.n_posix_memalign).2 = NULL
          ∨ (w.posix_memalign s.n_posix_memalign).2 = MAP_FAILED
  · simp [mremap_tests, bind, M.bind, set_errno, pure, M.pure, getpagesize, set_page_sz,
      call_setup, t_data, setup1_spec, e1, e2, Res.value?]
  · simp [mremap_tests, bind, M.bind, set_errno, pure, M.pure, getpagesize, set_page_sz,
      call_setup, t_data, setup1_spec, e1, e2, Res.value?, mremap, h, load]

/-- Scenario 1 never returns a value other than 0, whatever `mremap` returns and
whatever the memory holds. -/
theorem scenario1_never_fails (w : World) (s : St) :
    (mremap_tests w (t_data 0) 1 s).value? = some 0 ∨
    (mremap_tests w (t_data 0) 1 s).value? = none := by
  by_cases h : (w.mremap s.n_mremap).1 = MAP_FAILED
  · exact Or.inr (scenario1_hides_mremap_failure w s h)
  by_cases e1 : (w.posix_memalign s.n_posix_memalign).1 = ENOMEM
  · simp [mremap_tests, bind, M.bind, set_errno, pure, M.pure, getpagesize, set_page_sz,
      call_setup, t_data, setup1_spec, e1, Res.value?]
  by_cases e2 : (w.posix_memalign s.n_posix_memalign).2 = NULL
          ∨ (w.posix_memalign s.n_posix_memalign).2 = MAP_FAILED
  · simp [mremap_tests, bind, M.bind, set_errno, pure, M.pure, getpagesize, set_page_sz,
      call_setup, t_data, setup1_spec, e1, e2, Res.value?]
  have h0 : NULL ≠ MAP_FAILED := by decide
  by_cases e3 : (w.mremap s.n_mremap).1 = NULL
  · simp [mremap_tests, bind, M.bind, set_errno, pure, M.pure, getpagesize, set_page_sz,
      call_setup, t_data, setup1_spec, e1, e2, e3, Res.value?, mremap, h0, cleanup_eq]
  by_cases u0 : w.munmap s.n_munmap = -1
  · simp [mremap_tests, bind, M.bind, set_errno, pure, M.pure, getpagesize, set_page_sz,
      call_setup, t_data, setup1_spec, e1, e2, e3, Res.value?, mremap, h, cleanup_eq, u0]
  · simp [mremap_tests, bind, M.bind, set_errno, pure, M.pure, getpagesize, set_page_sz,
      call_setup, t_data, setup1_spec, e1, e2, e3, Res.value?, mremap, h, cleanup_eq, u0]

/-- Scenario 4 never returns a value other than 0 when `mremap` returns
`MAP_FAILED`. -/
theorem scenario4_hides_mremap_failure (w : World) (s : St)
    (h : (w.mremap s.n_mremap).1 = MAP_FAILED) :
    (mremap_tests w (t_data 3) 4 s).value? = some 0 ∨
    (mremap_tests w (t_data 3) 4 s).value? = none := by
  by_cases e1 : w.t_addr + off_old_address = MAP_FAILED
  · simp [mremap_tests, bind, M.bind, set_errno, pure, M.pure, getpagesize, set_page_sz,
      call_setup, t_data, setup4_spec, e1, Res.value?]
  by_cases e3 : w.mmap s.n_mmap = NULL ∨ w.mmap s.n_mmap = MAP_FAILED
  · simp [mremap_tests, bind, M.bind, set_errno, pure, M.pure, getpagesize, set_page_sz,
      call_setup, t_data, setup4_spec, e1, e3, Res.value?]
  push_neg at e3
  obtain ⟨e5, e7⟩ := e3
  by_cases u0 : w.munmap s.n_munmap = -1
  · simp [mremap_tests, bind, M.bind, set_errno, pure, M.pure, getpagesize, set_page_sz,
      call_setup, t_data, setup4_spec, cleanup_eq, mremap, h, e1, e5, e7, u0, Res.value?]
  · simp [mremap_tests, bind, M.bind, set_errno, pure, M.pure, getpagesize, set_page_sz,
      call_setup, t_data, setup4_spec, cleanup_eq, mremap, h, e1, e5, e7, u0, Res.value?]

/-- Scenario 3 never returns a value other than 0 when `mremap` returns
`MAP_FAILED`. -/
theorem scenario3_hides_mremap_failure (w : World) (s : St)
    (h : (w.mremap s.n_mremap).1 = MAP_FAILED) :
    (mremap_tests w (t_data 2) 3 s).value? = some 0 ∨
    (mremap_tests w (t_data 2) 3 s).value? = none := by
  have h0 : MAP_FAILED ≠ NULL := by decide
  by_cases e1 : w.t_addr + off_old_address = MAP_FAILED
  · simp [mremap_tests, bind, M.bind, set_errno, pure, M.pure, getpagesize, set_page_sz,
      call_setup, t_data, setup3_spec, e1, Res.value?]
  by_cases e2 : w.t_addr + off_new_address = MAP_FAILED
  · simp [mremap_tests, bind, M.bind, set_errno, pure, M.pure, getpagesize, set_page_sz,
      call_setup, t_data, setup3_spec, e1, e2, Res.value?]
  by_cases e3 : w.mmap s.n_mmap = NULL ∨ w.mmap s.n_mmap = MAP_FAILED
  · simp [mremap_tests, bind, M.bind, set_errno, pure, M.pure, getpagesize, set_page_sz,
      call_setup, t_data, setup3_spec, e1, e2, e3, Res.value?]
  by_cases e4 : w.mmap (s.n_mmap + 1) = NULL ∨ w.mmap (s.n_mmap + 1) = MAP_FAILED
  · simp [mremap_tests, bind, M.bind, set_errno, pure, M.pure, getpagesize, set_page_sz,
      call_setup, t_data, setup3_spec, e1, e2, e3, e4, Res.value?]
  push_neg at e3 e4
  obtain ⟨e5, e7⟩ := e3
  obtain ⟨e6, e8⟩ := e4
  by_cases u0 : w.munmap s.n_munmap = -1
  · simp [mremap_tests, bind, M.bind, set_errno, pure, M.pure, getpagesize, set_page_sz,
      call_setup, t_data, setup3_spec, cleanup_eq, mremap, h, h0, e1, e2, e5, e6, e7, e8, u0,
      Res.value?]
  by_cases u1 : w.munmap (s.n_munmap + 1) = -1
  · simp [mremap_tests, bind, M.bind, set_errno, pure, M.pure, getpagesize, set_page_sz,
      call_setup, t_data, setup3_spec, cleanup_eq, mremap, h, h0, e1, e2, e5, e6, e7, e8, u0,
      u1, Res.value?]
  by_cases u2 : w.munmap (s.n_munmap + 1 + 1) = -1
  · simp [mremap_tests, bind, M.bind, set_errno, pure, M.pure, getpagesize, set_page_sz,
      call_setup, t_data, setup3_spec, cleanup_eq, mremap, h, h0, e1, e2, e5, e6, e7, e8, u0,
      u1, u2, Res.value?]
  · simp [mremap_tests, bind, M.bind, set_errno, pure, M.pure, getpagesize, set_page_sz,
      call_setup, t_data, setup3_spec, cleanup_eq, mremap, h, h0, e1, e2, e5, e6, e7, e8, u0,
      u1, u2, Res.value?]

/-- Scenario 5 never returns a value other than 0 when `mremap` returns
`MAP_FAILED`. -/
theorem scenario5_hides_mremap_failure (w : World) (s : St)
    (h : (w.mremap s.n_mremap).1 = MAP_FAILED) :
    (mremap_tests w (t_data 4) 5 s).value? = some 0 ∨
    (mremap_tests w (t_data 4) 5 s).value? = none := by
  have h0 : MAP_FAILED ≠ NULL := by decide
  by_cases e1 : w.t_addr + off_old_address = MAP_FAILED
  · simp [mremap_tests, bind, M.bind, set_errno, pure, M.pure, getpagesize, set_page_sz,
      call_setup, t_data, setup5_spec, cleanup_eq, mremap, Res.value?, e1]
  by_cases e2 : w.t_addr + off_new_address = MAP_FAILED
  · simp [mremap_tests, bind, M.bind, set_errno, pure, M.pure, getpagesize, set_page_sz,
      call_setup, t_data, setup5_spec, cleanup_eq, mremap, Res.value?, e1, e2]
  by_cases e3 : w.mmap s.n_mmap = NULL ∨ w.mmap s.n_mmap = MAP_FAILED
  · simp [mremap_tests, bind, M.bind, set_errno, pure, M.pure, getpagesize, set_page_sz,
      call_setup, t_data, setup5_spec, cleanup_eq, mremap, Res.value?, e1, e2, e3]
  push_neg at e3
  obtain ⟨e5, e7⟩ := e3
  by_cases u0 : w.munmap s.n_munmap = -1
  · simp [mremap_tests, bind, M.bind, set_errno, pure, M.pure, getpagesize, set_page_sz,
      call_setup, t_data, setup5_spec, cleanup_eq, mremap, Res.value?, h, h0, e1, e2, e5, e7, u0]
  by_cases u1 : w.munmap (s.n_munmap + 1) = -1
  · simp [mremap_tests, bind, M.bind, set_errno, pure, M.pure, getpagesize, set_page_sz,
      call_setup, t_data, setup5_spec, cleanup_eq, mremap, Res.value?, h, h0, e1, e2, e5, e7, u0, u1]
  by_cases e6 : w.mmap (s.n_mmap + 1) = NULL
  · simp [mremap_tests, bind, M.bind, set_errno, pure, M.pure, getpagesize, set_page_sz,
      call_setup, t_data, setup5_spec, cleanup_eq, mremap, Res.value?, h, h0, e1, e2, e5, e7, u0, u1, e6]
  by_cases u2 : w.munmap (s.n_munmap + 1 + 1) = -1
  · simp [mremap_tests, bind, M.bind, set_errno, pure, M.pure, getpagesize, set_page_sz,
      call_setup, t_data, setup5_spec, cleanup_eq, mremap, Res.value?, h, h0, e1, e2, e5, e7, u0, u1, e6, u2]
  · simp [mremap_tests, bind, M.bind, set_errno, pure, M.pure, getpagesize, set_page_sz,
      call_setup, t_data, setup5_spec, cleanup_eq, mremap, Res.value?, h, h0, e1, e2, e5, e7, u0, u1, e6, u2]
/-- Scenario 4 calls `munmap` at most once, and only on the source mapping that
`setup4` created: the mapping that `mremap` returns is never handed to
`munmap`. -/
theorem scenario4_munmap_calls (w : World) (s : St) :
    munmap_calls (mremap_tests w (t_data 3) 4 s).state.trace = munmap_calls s.trace ∨
    munmap_calls (mremap_tests w (t_data 3) 4 s).state.trace =
      munmap_calls s.trace ++
        [(w.mmap s.n_mmap,
          size_t_of_int (int_of_size_t
            (scaled (w.getpagesize s.n_getpagesize) (t_data 3).old_size)))] := by
  have h0 : NULL ≠ MAP_FAILED := by decide
  by_cases e1 : w.t_addr + off_old_address = MAP_FAILED
  · simp [mremap_tests, bind, M.bind, set_errno, pure, M.pure, getpagesize, set_page_sz,
      call_setup, t_data, setup4_spec, cleanup_eq, mremap, load, Res.state,
      munmap_calls_append, munmap_calls, e1]
  by_cases e3 : w.mmap s.n_mmap = NULL ∨ w.mmap s.n_mmap = MAP_FAILED
  · simp [mremap_tests, bind, M.bind, set_errno, pure, M.pure, getpagesize, set_page_sz,
      call_setup, t_data, setup4_spec, cleanup_eq, mremap, load, Res.state,
      munmap_calls_append, munmap_calls, e1, e3]
  push_neg at e3
  obtain ⟨e5, e7⟩ := e3
  by_cases u0 : w.munmap s.n_munmap = -1
  · by_cases hf : (w.mremap s.n_mremap).1 = MAP_FAILED
    · simp [mremap_tests, bind, M.bind, set_errno, pure, M.pure, getpagesize, set_page_sz,
      call_setup, t_data, setup4_spec, cleanup_eq, mremap, load, Res.state,
      munmap_calls_append, munmap_calls, e1, e5, e7, hf, u0]
    by_cases hn : (w.mremap s.n_mremap).1 = NULL
    · simp [mremap_tests, bind, M.bind, set_errno, pure, M.pure, getpagesize, set_page_sz,
      call_setup, t_data, setup4_spec, cleanup_eq, mremap, load, Res.state,
      munmap_calls_append, munmap_calls, e1, e5, e7, h0, hn, u0]
    rcases hm : w.mem (s.n_mremap + 1) (w.mremap s.n_mremap).1 with _ | v
    · simp [mremap_tests, bind, M.bind, set_errno, pure, M.pure, getpagesize, set_page_sz,
      call_setup, t_data, setup4_spec, cleanup_eq, mremap, load, Res.state,
      munmap_calls_append, munmap_calls, e1, e5, e7, hf, hn, hm, u0]
    by_cases hv : v = 1
    · simp [mremap_tests, bind, M.bind, set_errno, pure, M.pure, getpagesize, set_page_sz,
      call_setup, t_data, setup4_spec, cleanup_eq, mremap, load, Res.state,
      munmap_calls_append, munmap_calls, e1, e5, e7, hf, hn, hm, hv, u0]
    · simp [mremap_tests, bind, M.bind, set_errno, pure, M.pure, getpagesize, set_page_sz,
      call_setup, t_data, setup4_spec, cleanup_eq, mremap, load, Res.state,
      munmap_calls_append, munmap_calls, e1, e5, e7, hf, hn, hm, hv, u0]
  · by_cases hf : (w.mremap s.n_mremap).1 = MAP_FAILED
    · simp [mremap_tests, bind, M.bind, set_errno, pure, M.pure, getpagesize, set_page_sz,
      call_setup, t_data, setup4_spec, cleanup_eq, mremap, load, Res.state,
      munmap_calls_append, munmap_calls, e1, e5, e7, hf, u0]
    by_cases hn : (w.mremap s.n_mremap).1 = NULL
    · simp [mremap_tests, bind, M.bind, set_errno, pure, M.pure, getpagesize, set_page_sz,
      call_setup, t_data, setup4_spec, cleanup_eq, mremap, load, Res.state,
      munmap_calls_append, munmap_calls, e1, e5, e7, h0, hn, u0]
    rcases hm : w.mem (s.n_mremap + 1) (w.mremap s.n_mremap).1 with _ | v
    · simp [mremap_tests, bind, M.bind, set_errno, pure, M.pure, getpagesize, set_page_sz,
      call_setup, t_data, setup4_spec, cleanup_eq, mremap, load, Res.state,
      munmap_calls_append, munmap_calls, e1, e5, e7, hf, hn, hm, u0]
    by_cases hv : v = 1
    · simp [mremap_tests, bind, M.bind, set_errno, pure, M.pure, getpagesize, set_page_sz,
      call_setup, t_data, setup4_spec, cleanup_eq, mremap, load, Res.state,
      munmap_calls_append, munmap_calls, e1, e5, e7, hf, hn, hm, hv, u0]
    · simp [mremap_tests, bind, M.bind, set_errno, pure, M.pure, getpagesize, set_page_sz,
      call_setup, t_data, setup4_spec, cleanup_eq, mremap, load, Res.state,
      munmap_calls_append, munmap_calls, e1, e5, e7, hf, hn, hm, hv, u0]

/-- Scenario 3 reads no byte and never returns a value other than 0 when
`mremap` returns the address of the destination that `setup3` mapped, whatever
the memory holds there. -/
theorem scenario3_accepts_destination (w : World) (s : St)
    (h : (w.mremap s.n_mremap).1 = w.mmap (s.n_mmap + 1)) :
    ((mremap_tests w (t_data 2) 3 s).value? = some 0 ∨
      (mremap_tests w (t_data 2) 3 s).value? = none) ∧
    loads (mremap_tests w (t_data 2) 3 s).state.trace = loads s.trace := by
  by_cases e1 : w.t_addr + off_old_address = MAP_FAILED
  · simp [mremap_tests, bind, M.bind, set_errno, pure, M.pure, getpagesize, set_page_sz,
      call_setup, t_data, setup3_spec, cleanup_eq, mremap, Res.state, Res.value?,
      loads_append, loads, e1]
  by_cases e2 : w.t_addr + off_new_address = MAP_FAILED
  · simp [mremap_tests, bind, M.bind, set_errno, pure, M.pure, getpagesize, set_page_sz,
      call_setup, t_data, setup3_spec, cleanup_eq, mremap, Res.state, Res.value?,
      loads_append, loads, e1, e2]
  by_cases e3 : w.mmap s.n_mmap = NULL ∨ w.mmap s.n_mmap = MAP_FAILED
  · simp [mremap_tests, bind, M.bind, set_errno, pure, M.pure, getpagesize, set_page_sz,
      call_setup, t_data, setup3_spec, cleanup_eq, mremap, Res.state, Res.value?,
      loads_append, loads, e1, e2, e3]
  by_cases e4 : w.mmap (s.n_mmap + 1) = NULL ∨ w.mmap (s.n_mmap + 1) = MAP_FAILED
  · simp [mremap_tests, bind, M.bind, set_errno, pure, M.pure, getpagesize, set_page_sz,
      call_setup, t_data, setup3_spec, cleanup_eq, mremap, Res.state, Res.value?,
      loads_append, loads, e1, e2, e3, e4]
  push_neg at e3 e4
  obtain ⟨e5, e7⟩ := e3
  obtain ⟨e6, e8⟩ := e4
  by_cases u0 : w.munmap s.n_munmap = -1
  · simp [mremap_tests, bind, M.bind, set_errno, pure, M.pure, getpagesize, set_page_sz,
      call_setup, t_data, setup3_spec, cleanup_eq, mremap, Res.state, Res.value?,
      loads_append, loads, h, e1, e2, e5, e6, e7, e8, u0]
  by_cases u1 : w.munmap (s.n_munmap + 1) = -1
  · simp [mremap_tests, bind, M.bind, set_errno, pure, M.pure, getpagesize, set_page_sz,
      call_setup, t_data, setup3_spec, cleanup_eq, mremap, Res.state, Res.value?,
      loads_append, loads, h, e1, e2, e5, e6, e7, e8, u0, u1]
  by_cases u2 : w.munmap (s.n_munmap + 1 + 1) = -1
  · simp [mremap_tests, bind, M.bind, set_errno, pure, M.pure, getpagesize, set_page_sz,
      call_setup, t_data, setup3_spec, cleanup_eq, mremap, Res.state, Res.value?,
      loads_append, loads, h, e1, e2, e5, e6, e7, e8, u0, u1, u2]
  · simp [mremap_tests, bind, M.bind, set_errno, pure, M.pure, getpagesize, set_page_sz,
      call_setup, t_data, setup3_spec, cleanup_eq, mremap, Res.state, Res.value?,
      loads_append, loads, h, e1, e2, e5, e6, e7, e8, u0, u1, u2]

/-! ## C8, amended: what scenario 3 unmaps -/

/-- C8, amended.  Scenario 3, with both mappings of `setup3` in place (source `A`,
destination `B`), when `mremap` returns the requested destination `B` and the
first two calls of `munmap` do not fail: `munmap` is called three times, on the
address returned (`B`) with `new_size`, on the source `A` with `old_size`, and on
`new_address` (`B` again) with `new_size`; the destination is unmapped twice. -/
theorem scenario3_munmap_calls (w : World) (s : St) (A B : Nat)
    (hA : w.mmap s.n_mmap = A) (hB : w.mmap (s.n_mmap + 1) = B)
    (hA0 : A ≠ NULL) (hA1 : A ≠ MAP_FAILED) (hB0 : B ≠ NULL) (hB1 : B ≠ MAP_FAILED)
    (hAB : A ≠ B) (ht : w.t_addr % 8 = 0)
    (hr : (w.mremap s.n_mremap).1 = B)
    (hu0 : w.munmap s.n_munmap ≠ -1) (hu1 : w.munmap (s.n_munmap + 1) ≠ -1) :
    munmap_calls (mremap_tests w (t_data 2) 3 s).state.trace =
      munmap_calls s.trace ++
        [(B, size_t_of_int (int_of_size_t
                (scaled (w.getpagesize s.n_getpagesize) (t_data 2).new_size))),
         (A, size_t_of_int (int_of_size_t
                (scaled (w.getpagesize s.n_getpagesize) (t_data 2).old_size))),
         (B, size_t_of_int (int_of_size_t
                (scaled (w.getpagesize s.n_getpagesize) (t_data 2).new_size)))] ∧
    munmap_count B (mremap_tests w (t_data 2) 3 s).state.trace =
      munmap_count B s.trace + 2 := by
  have hp1 : w.t_addr + off_old_address ≠ MAP_FAILED :=
    member_ne_MAP_FAILED _ _ ht (by decide)
  have hp2 : w.t_addr + off_new_address ≠ MAP_FAILED :=
    member_ne_MAP_FAILED _ _ ht (by decide)
  have key : munmap_calls (mremap_tests w (t_data 2) 3 s).state.trace =
      munmap_calls s.trace ++
        [(B, size_t_of_int (int_of_size_t
                (scaled (w.getpagesize s.n_getpagesize) (t_data 2).new_size))),
         (A, size_t_of_int (int_of_size_t
                (scaled (w.getpagesize s.n_getpagesize) (t_data 2).old_size))),
         (B, size_t_of_int (int_of_size_t
                (scaled (w.getpagesize s.n_getpagesize) (t_data 2).new_size)))] := by
    by_cases hu2 : w.munmap (s.n_munmap + 1 + 1) = -1 <;>
    simp [mremap_tests, bind, M.bind, set_errno, pure, M.pure, getpagesize, set_page_sz,
      call_setup, t_data, setup3, get_page_sz, map_mem_returns, hp1, hp2, hA, hB, store,
      hA0, hA1, hB0, hB1, mremap, hr, cleanup_eq, hu0, hu1, hu2, Res.state,
      munmap_calls_append, munmap_calls, scaled]
  refine ⟨key, ?_⟩
  unfold munmap_count
  rw [key]
  simp [List.filter_append, List.filter_cons, hAB]

/-- The run `w_fixed` meets the conditions of `scenario3_munmap_calls`: the
destination `0x7f0000100000` is unmapped twice. -/
theorem scenario3_munmap_calls_witness :
    munmap_calls (mremap_tests w_fixed (t_data 2) 3 St.init).state.trace =
      munmap_calls St.init.trace ++
        [(0x7f0000100000, size_t_of_int (int_of_size_t
                (scaled (w_fixed.getpagesize St.init.n_getpagesize)
                  (t_data 2).new_size))),
         (0x7f0000000000, size_t_of_int (int_of_size_t
                (scaled (w_fixed.getpagesize St.init.n_getpagesize)
                  (t_data 2).old_size))),
         (0x7f0000100000, size_t_of_int (int_of_size_t
                (scaled (w_fixed.getpagesize St.init.n_getpagesize)
                  (t_data 2).new_size)))] ∧
    munmap_count 0x7f0000100000 (mremap_tests w_fixed (t_data 2) 3 St.init).state.trace =
      munmap_count 0x7f0000100000 St.init.trace + 2 :=
  scenario3_munmap_calls w_fixed St.init 0x7f0000000000 0x7f0000100000
    (by decide) (by decide) (by decide) (by decide) (by decide) (by decide) (by decide)
    (by decide) (by decide) (by decide) (by decide)

/-! ## C6: `do_test` -/

set_option maxHeartbeats 4000000 in
/-- The run of `do_test`, call by call: a scenario that stops ends the run; when
all five return, the value is 0 if all five returned 0 and 1 otherwise. -/
theorem do_test_unfold (w : World) (s0 : St) :
    do_test w s0 =
      match mremap_tests w (t_data 0) 1 s0 with
      | .stop y s => .stop y s
      | .ok r1 s1 =>
      match mremap_tests w (t_data 1) 2
          (reported "mremap test 1 %s failed" (t_data 0).test_case r1 s1) with
      | .stop y s => .stop y s
      | .ok r2 s2 =>
      match mremap_tests w (t_data 2) 3
          (reported "mremap test 2 %s failed" (t_data 1).test_case r2 s2) with
      | .stop y s => .stop y s
      | .ok r3 s3 =>
      match mremap_tests w (t_data 3) 4
          (reported "mremap test 3 %s failed" (t_data 2).test_case r3 s3) with
      | .stop y s => .stop y s
      | .ok r4 s4 =>
      match mremap_tests w (t_data 4) 5
          (reported "mremap test 4 %s failed" (t_data 3).test_case r4 s4) with
      | .stop y s => .stop y s
      | .ok r5 s5 =>
        .ok (if r1 = 0 ∧ r2 = 0 ∧ r3 = 0 ∧ r4 = 0 ∧ r5 = 0 then 0 else 1)
          (reported "mremap test 5 %s failed" (t_data 4).test_case r5 s5) := by
  rcases h1 : mremap_tests w (t_data 0) 1 s0 with ⟨r1, s1⟩ | ⟨y1, s1⟩
  swap
  · simp [do_test, bind, M.bind, h1]
  rcases h2 : mremap_tests w (t_data 1) 2
          (reported "mremap test 1 %s failed" (t_data 0).test_case r1 s1) with ⟨r2, s2⟩ | ⟨y2, s2⟩
  swap
  · unfold reported at h2 ⊢
    by_cases e1 : r1 = 0 <;> simp [e1] at h2 ⊢ <;>
    simp [do_test, bind, M.bind, pure, M.pure, printf, log, h1, h2, e1]
  rcases h3 : mremap_tests w (t_data 2) 3
          (reported "mremap test 2 %s failed" (t_data 1).test_case r2 s2) with ⟨r3, s3⟩ | ⟨y3, s3⟩
  swap
  · unfold reported at h2 h3 ⊢
    by_cases e1 : r1 = 0 <;> by_cases e2 : r2 = 0 <;> simp [e1, e2] at h2 h3 ⊢ <;>
    simp [do_test, bind, M.bind, pure, M.pure, printf, log, h1, h2, h3, e1, e2]
  rcases h4 : mremap_tests w (t_data 3) 4
          (reported "mremap test 3 %s failed" (t_data 2).test_case r3 s3) with ⟨r4, s4⟩ | ⟨y4, s4⟩
  swap
  · unfold reported at h2 h3 h4 ⊢
    by_cases e1 : r1 = 0 <;> by_cases e2 : r2 = 0 <;> by_cases e3 : r3 = 0 <;>
    simp [e1, e2, e3] at h2 h3 h4 ⊢ <;>
    simp [do_test, bind, M.bind, pure, M.pure, printf, log, h1, h2, h3, h4, e1, e2, e3]
  rcases h5 : mremap_tests w (t_data 4) 5
          (reported "mremap test 4 %s failed" (t_data 3).test_case r4 s4) with ⟨r5, s5⟩ | ⟨y5, s5⟩
  swap
  · unfold reported at h2 h3 h4 h5 ⊢
    by_cases e1 : r1 = 0 <;> by_cases e2 : r2 = 0 <;> by_cases e3 : r3 = 0 <;>
    by_cases e4 : r4 = 0 <;>
    simp [e1, e2, e3, e4] at h2 h3 h4 h5 ⊢ <;>
    simp [do_test, bind, M.bind, pure, M.pure, printf, log, h1, h2, h3, h4, h5, e1, e2, e3, e4]
  unfold reported at h2 h3 h4 h5 ⊢
  by_cases e1 : r1 = 0 <;> by_cases e2 : r2 = 0 <;> by_cases e3 : r3 = 0 <;>
    by_cases e4 : r4 = 0 <;> by_cases e5 : r5 = 0 <;>
    simp [e1, e2, e3, e4, e5] at h2 h3 h4 h5 ⊢ <;>
    simp [do_test, bind, M.bind, pure, M.pure, printf, log, h1, h2, h3, h4, h5,
      e1, e2, e3, e4, e5]

/-- C6. `do_test` calls `mremap_tests` for scenario 1, 2, 3, 4, 5, in this order,
each from the state the previous one left (after its failure line, if any, was
printed), whatever values the earlier calls returned.  When the five calls
return `r1 .. r5`, `do_test` returns 0 if all five are 0 and 1 otherwise, in the
state that the fifth call left. -/
theorem do_test_runs_all (w : World) (s0 s1 s2 s3 s4 s5 : St) (r1 r2 r3 r4 r5 : Int)
    (h1 : mremap_tests w (t_data 0) 1 s0 = .ok r1 s1)
    (h2 : mremap_tests w (t_data 1) 2
            (reported "mremap test 1 %s failed" (t_data 0).test_case r1 s1) = .ok r2 s2)
    (h3 : mremap_tests w (t_data 2) 3
            (reported "mremap test 2 %s failed" (t_data 1).test_case r2 s2) = .ok r3 s3)
    (h4 : mremap_tests w (t_data 3) 4
            (reported "mremap test 3 %s failed" (t_data 2).test_case r3 s3) = .ok r4 s4)
    (h5 : mremap_tests w (t_data 4) 5
            (reported "mremap test 4 %s failed" (t_data 3).test_case r4 s4) = .ok r5 s5) :
    do_test w s0 =
      .ok (if r1 = 0 ∧ r2 = 0 ∧ r3 = 0 ∧ r4 = 0 ∧ r5 = 0 then 0 else 1)
        (reported "mremap test 5 %s failed" (t_data 4).test_case r5 s5) := by
  rw [do_test_unfold, h1]
  simp only [h2, h3, h4, h5]

/-- In the run `w_suite_2` the five scenarios return 0, 1, 0, 0, 0: all five are
run and `do_test` returns 1. -/
theorem do_test_runs_all_witness :
    (do_test w_suite_2 St.init).value? = some 1 :=
  congrArg Res.value?
    (do_test_runs_all w_suite_2 St.init _ _ _ _ _ 0 1 0 0 0 rfl rfl rfl rfl rfl)

/-- The whole suite in the run `w_suite`: the `mremap` of scenario 4 (the fourth
call) fails, the five scenarios are run (five calls of `getpagesize` and of
`mremap`), and `do_test` returns 0. -/
theorem suite_passes_in_w_suite :
    (w_suite.mremap 3).1 = MAP_FAILED ∧
    (do_test w_suite St.init).state.n_getpagesize = 5 ∧
    (do_test w_suite St.init).state.n_mremap = 5 ∧
    (do_test w_suite St.init).value? = some 0 := by
  decide

/-- The function `do_test` returns 0 exactly when the five scenarios, run one after the other,
each return 0. -/
theorem do_test_zero_iff (w : World) (s0 : St) :
    (do_test w s0).value? = some 0 ↔
      ∃ s1 s2 s3 s4 s5,
        mremap_tests w (t_data 0) 1 s0 = .ok 0 s1 ∧
        mremap_tests w (t_data 1) 2 s1 = .ok 0 s2 ∧
        mremap_tests w (t_data 2) 3 s2 = .ok 0 s3 ∧
        mremap_tests w (t_data 3) 4 s3 = .ok 0 s4 ∧
        mremap_tests w (t_data 4) 5 s4 = .ok 0 s5 := by
  rw [do_test_unfold]
  constructor
  · intro h
    split at h
    · simp [Res.value?] at h
    rename_i r1 s1 h1
    split at h
    · simp [Res.value?] at h
    rename_i r2 s2 h2
    split at h
    · simp [Res.value?] at h
    rename_i r3 s3 h3
    split at h
    · simp [Res.value?] at h
    rename_i r4 s4 h4
    split at h
    · simp [Res.value?] at h
    rename_i r5 s5 h5
    simp only [Res.value?, Option.some.injEq] at h
    split_ifs at h with hz
    · obtain ⟨rfl, rfl, rfl, rfl, rfl⟩ := hz
      simp only [reported, ne_eq, not_true_eq_false, if_false] at h2 h3 h4 h5
      exact ⟨s1, s2, s3, s4, s5, h1, h2, h3, h4, h5⟩
    · simp at h
  · rintro ⟨s1, s2, s3, s4, s5, h1, h2, h3, h4, h5⟩
    simp [h1, h2, h3, h4, h5, reported, Res.value?]

end TstMremap
